import Mathlib

/-!
Verification of the invoice lifecycle and numbering subsystem of the
simpleinvoice backend (Express + Prisma).  The definitions below are a
shallow embedding of the invoice router (`src/unnamed/part_000`) together
with the relevant parts of the Prisma schema (`src/prisma/schema.prisma`):
JavaScript numbers are modelled as rationals, `Date` values are carried as
opaque strings (creation) or abstract natural-number instants (`paidAt`),
fallible route handlers return `Except`, and the database is explicit
state that each handler threads through.
-/

namespace SimpleInvoice

/-! ## Decimal rendering of naturals, as JavaScript `String(n)` -/

/-- The character for a single decimal digit. -/
def digitChar : ℕ → Char
  | 0 => '0'
  | 1 => '1'
  | 2 => '2'
  | 3 => '3'
  | 4 => '4'
  | 5 => '5'
  | 6 => '6'
  | 7 => '7'
  | 8 => '8'
  | 9 => '9'
  | _ => '*'

/-- Fuelled most-significant-first decimal digit list of `n` (empty for 0). -/
def toCharsAux : ℕ → ℕ → List Char
  | 0, _ => []
  | fuel + 1, n =>
    if n = 0 then [] else toCharsAux fuel (n / 10) ++ [digitChar (n % 10)]

/-- Decimal string of `n`, as the character list of JavaScript `String(n)`. -/
def natToChars (n : ℕ) : List Char :=
  if n = 0 then ['0'] else toCharsAux n n

/-- Character list of `String(n).padStart(5, "0")`:  left-pad with zeros up
to length 5, leaving longer strings unchanged. -/
def pad5Chars (n : ℕ) : List Char :=
  List.replicate (5 - (natToChars n).length) '0' ++ natToChars n

/-- The string `String(n).padStart(5, "0")`. -/
def pad5Str (n : ℕ) : String :=
  String.mk (pad5Chars n)

/-- Decode a digit-character list back to a natural number (left inverse of
the padded rendering; leading `'0'` characters are harmless). -/
def val10 (l : List Char) : ℕ :=
  l.foldl (fun a c => a * 10 + (c.toNat - 48)) 0

theorem foldl_val10 (l : List Char) (a : ℕ) :
    l.foldl (fun a c => a * 10 + (c.toNat - 48)) a = a * 10 ^ l.length + val10 l := by
  induction l generalizing a with
  | nil => simp [val10]
  | cons c t ih =>
    simp only [List.foldl_cons, List.length_cons, val10]
    rw [ih (a * 10 + (c.toNat - 48)), ih (0 * 10 + (c.toNat - 48))]
    ring

theorem val10_append (l₁ l₂ : List Char) :
    val10 (l₁ ++ l₂) = val10 l₁ * 10 ^ l₂.length + val10 l₂ := by
  simp only [val10, List.foldl_append]
  rw [foldl_val10 l₂ (List.foldl (fun a c => a * 10 + (c.toNat - 48)) 0 l₁)]
  rfl

theorem val10_replicate_zero (k : ℕ) :
    val10 (List.replicate k '0') = 0 := by
  induction k with
  | zero => simp [val10]
  | succ k ih =>
    simp only [List.replicate_succ, val10, List.foldl_cons] at *
    simpa using ih

theorem toNat_digitChar {d : ℕ} (h : d < 10) :
    (digitChar d).toNat - 48 = d := by
  interval_cases d <;> decide

theorem val10_toCharsAux : ∀ fuel n, n ≤ fuel → val10 (toCharsAux fuel n) = n := by
  intro fuel
  induction fuel with
  | zero =>
    intro n hn
    interval_cases n
    simp [toCharsAux, val10]
  | succ fuel ih =>
    intro n hn
    by_cases h0 : n = 0
    · simp [toCharsAux, h0, val10]
    · have hdiv : n / 10 ≤ fuel := by
        have : n / 10 < n := Nat.div_lt_self (Nat.pos_of_ne_zero h0) (by omega)
        omega
      simp only [toCharsAux, h0, if_false, val10_append, ih _ hdiv]
      have hm : n % 10 < 10 := Nat.mod_lt _ (by omega)
      simp only [val10, List.foldl_cons, List.foldl_nil, List.length_cons,
        List.length_nil, Nat.zero_mul, Nat.zero_add, toNat_digitChar hm]
      have := Nat.div_add_mod n 10
      simp only [pow_one]
      omega

theorem val10_natToChars (n : ℕ) : val10 (natToChars n) = n := by
  by_cases h0 : n = 0
  · simp [natToChars, h0, val10]
  · simp only [natToChars, h0, if_false]
    exact val10_toCharsAux n n le_rfl

theorem val10_pad5Chars (n : ℕ) : val10 (pad5Chars n) = n := by
  simp only [pad5Chars, val10_append, val10_replicate_zero, Nat.zero_mul,
    Nat.zero_add, val10_natToChars]

theorem pad5Str_injective : Function.Injective pad5Str := by
  intro m n h
  have hchars : pad5Chars m = pad5Chars n := congrArg String.data h
  have := congrArg val10 hchars
  simpa [val10_pad5Chars] using this

theorem append_pad5Str_injective (p : String) {m n : ℕ}
    (h : p ++ pad5Str m = p ++ pad5Str n) : m = n := by
  have hdata : p.data ++ (pad5Str m).data = p.data ++ (pad5Str n).data := by
    simpa [String.data_append] using congrArg String.data h
  have : (pad5Str m).data = (pad5Str n).data := by
    exact List.append_cancel_left hdata
  have hs : pad5Str m = pad5Str n := by
    cases hm : pad5Str m
    cases hn : pad5Str n
    simp_all
  exact pad5Str_injective hs

deriving instance DecidableEq for Except

/-! ## Data model (prisma/schema.prisma) -/

/-- The `InvoiceStatus` enum of the Prisma schema. -/
inductive InvoiceStatus
  | UNPAID
  | PAID
  | OVERDUE
  | CANCELLED
deriving DecidableEq, Repr

/-- A row of the `InvoiceItem` model (monetary fields as rationals).
`quantity` is an `Int` column in the schema: the create path below refuses
non-integer values (as the Prisma client does), so only integral rationals
are ever stored in it. -/
structure InvoiceItem where
  description : String
  quantity : ℚ
  price : ℚ
  amount : ℚ
deriving DecidableEq, Repr

/-- A row of the `Invoice` model.  `date`/`dueDate` are carried as the
strings the client sent; `paidAt` is an abstract instant. -/
structure Invoice where
  id : String
  number : String
  date : String
  dueDate : String
  status : InvoiceStatus
  subtotal : ℚ
  tax : ℚ
  total : ℚ
  notes : Option String
  paymentProof : Option String
  paidAt : Option ℕ
  userId : String
  customerId : String
  items : List InvoiceItem
deriving DecidableEq, Repr

/-- The per-tenant fields of the `Settings` model used by invoice creation:
`invoicePrefix String?` and `nextInvoiceNumber Int @default(1)`. -/
structure Settings where
  invoicePrefix : Option String
  nextInvoiceNumber : ℕ
deriving DecidableEq, Repr

/-- One tenant's persisted state: its optional settings row and its
invoices. -/
structure TenantState where
  settings : Option Settings
  invoices : List Invoice
deriving DecidableEq, Repr

/-- The tenant's next-number counter (0 when no settings row exists). -/
def counterOf (st : TenantState) : ℕ :=
  match st.settings with
  | some s => s.nextInvoiceNumber
  | none => 0

/-! ## Request payloads (zod schemas, part_000 lines 76-98) -/

/-- An entry of `createInvoiceSchema.items`: `z.number()` places no sign or
integrality constraint, so quantity and price are arbitrary rationals here;
integrality of `quantity` is only enforced later, by the database layer at
the insert. -/
structure CreateItemInput where
  description : String
  quantity : ℚ
  price : ℚ
deriving DecidableEq, Repr

/-- A payload accepted by `createInvoiceSchema`. -/
structure CreateInvoiceInput where
  customerId : String
  date : String
  dueDate : String
  items : List CreateItemInput
  notes : Option String
  taxRate : ℚ
deriving DecidableEq, Repr

/-- A payload accepted by `updateInvoiceSchema`.  For the
`.nullable().optional()` fields the outer `Option` is presence of the key
and the inner one distinguishes `null` from a string. -/
structure UpdateInvoiceInput where
  status : Option InvoiceStatus
  paymentProof : Option (Option String)
  paymentNote : Option (Option String)
  dueDate : Option String
  notes : Option String
  paidAt : Option ℕ
deriving DecidableEq, Repr

/-! ## Route handlers (part_000) -/

/-- Errors surfaced by `router.post("/")` (create invoice). -/
inductive CreateError
  /-- `AppError(400, "User settings not found")`, line 181. -/
  | settingsNotFound
  /-- `prisma.invoice.create` refuses the payload before anything is
  written: `InvoiceItem.quantity` is an `Int` column (schema.prisma line
  87), so a non-integer quantity raises a client-side validation error. -/
  | nonIntegerQuantity
  /-- the database refuses the insert: primary-key conflict on `id` or
  `@@unique([userId, number])` conflict. -/
  | uniqueConflict
  /-- the `prisma.settings.update` increment after the insert failed. -/
  | incrementFailed
deriving DecidableEq, Repr

/-- Errors surfaced by `router.patch("/:id")` (update invoice). -/
inductive UpdateError
  /-- 404 `"Faktur tidak ditemukan"`. -/
  | notFound
  /-- 400 `"Faktur yang sudah lunas tidak dapat diubah statusnya"`. -/
  | paidLocked
  /-- 400 `"Faktur yang sudah dibatalkan tidak dapat diubah"`. -/
  | cancelledLocked
deriving DecidableEq, Repr

/-- JavaScript `a || d` on an optional string column:  `null` and `""` are
falsy, so both fall back to the default. -/
def strOrDefault (a : Option String) (d : String) : String :=
  match a with
  | none => d
  | some s => if s = "" then d else s

/-- The invoice number the create route builds from a settings row:
`` `${invoicePrefix}${String(nextNumber).padStart(5, "0")}` `` with
`invoicePrefix = settings.invoicePrefix || "INV"` (lines 184-189). -/
def nextNumberStr (s : Settings) : String :=
  strOrDefault s.invoicePrefix "INV" ++ pad5Str s.nextInvoiceNumber

/-- Line 168-171: `data.items.reduce((sum, item) => sum + item.quantity * item.price, 0)`. -/
def subtotalOf (input : CreateInvoiceInput) : ℚ :=
  input.items.foldl (fun sum item => sum + item.quantity * item.price) 0

/-- Line 172: `const tax = (subtotal * data.taxRate) / 100`. -/
def taxOf (input : CreateInvoiceInput) : ℚ :=
  subtotalOf input * input.taxRate / 100

/-- Line 173: `const total = subtotal + tax`. -/
def totalOf (input : CreateInvoiceInput) : ℚ :=
  subtotalOf input + taxOf input

/-- The row `prisma.invoice.create` inserts (lines 192-216): status defaults
to `UNPAID`, each item's `amount` is `item.quantity * item.price`. -/
def newInvoice (userId : String) (input : CreateInvoiceInput) (newId : String)
    (num : String) : Invoice :=
  { id := newId
    number := num
    date := input.date
    dueDate := input.dueDate
    status := .UNPAID
    subtotal := subtotalOf input
    tax := taxOf input
    total := totalOf input
    notes := input.notes
    paymentProof := none
    paidAt := none
    userId := userId
    customerId := input.customerId
    items := input.items.map fun item =>
      { description := item.description
        quantity := item.quantity
        price := item.price
        amount := item.quantity * item.price } }

/-- `router.post("/")`, lines 162-235.  Computes the totals, reads the
tenant's settings row, builds the invoice number, inserts the invoice with
its items (`prisma.invoice.create`), and only then increments
`nextInvoiceNumber` in a separate `prisma.settings.update` call; the two
writes are not wrapped in a transaction, so `incrementOk := false` models
the second write failing after the insert committed.  The
`nonIntegerQuantity` branch models the Prisma client's validation of the
`Int` column `quantity` (a fractional value makes `prisma.invoice.create`
throw before anything is written), and the `uniqueConflict` branch models
the database's primary-key and `@@unique([userId, number])` constraints
refusing the insert. -/
def createInvoice (st : TenantState) (userId : String) (input : CreateInvoiceInput)
    (newId : String) (incrementOk : Bool) :
    Except CreateError Invoice × TenantState :=
  match st.settings with
  | none => (.error .settingsNotFound, st)
  | some s =>
      let invoiceNumber := nextNumberStr s
      if input.items.any (fun item => !item.quantity.isInt) then
        (.error .nonIntegerQuantity, st)
      else if st.invoices.any (fun i => i.id == newId || i.number == invoiceNumber) then
        (.error .uniqueConflict, st)
      else
        let inv : Invoice := newInvoice userId input newId invoiceNumber
        let st1 : TenantState := { st with invoices := st.invoices ++ [inv] }
        if incrementOk then
          (.ok inv,
            { st1 with settings := some { s with nextInvoiceNumber := s.nextInvoiceNumber + 1 } })
        else
          (.error .incrementFailed, st1)

/-- Lines 359-374: `finalUpdateData` applied to the loaded invoice.  `notes`
is overwritten by the explicit `notes: 'paymentNote' in data ? data.paymentNote
: undefined` property (an `undefined` field is left unchanged by
`prisma.invoice.update`, `null` clears it), `paymentNote` itself is deleted,
and `paidAt` is stamped with the current instant when the update moves a
non-PAID invoice to PAID. -/
def applyInvoiceUpdate (invoice : Invoice) (input : UpdateInvoiceInput)
    (now : ℕ) : Invoice :=
  let finalNotes : Option (Option String) := input.paymentNote
  let finalPaidAt : Option ℕ :=
    if input.status = some .PAID ∧ ¬invoice.status = .PAID then some now
    else input.paidAt
  { invoice with
    status := input.status.getD invoice.status
    dueDate := input.dueDate.getD invoice.dueDate
    notes := match finalNotes with
      | none => invoice.notes
      | some v => v
    paymentProof := match input.paymentProof with
      | none => invoice.paymentProof
      | some v => v
    paidAt := match finalPaidAt with
      | none => invoice.paidAt
      | some t => some t }

/-- `router.patch("/:id")`, lines 305-392.  The lookup is
`prisma.invoice.findUnique({ where: { id } })`: it does not filter by the
authenticated user, so the caller's id is never consulted (exactly as in
the source, where `req.user` is unused in this handler); the guards mirror
lines 343-356. -/
def updateInvoice (db : List Invoice) (_callerId : String) (id : String)
    (input : UpdateInvoiceInput) (now : ℕ) :
    Except UpdateError Invoice × List Invoice :=
  match db.find? (fun i => i.id == id) with
  | none => (.error .notFound, db)
  | some invoice =>
      if invoice.status = .PAID ∧ ¬input.status = some .CANCELLED then
        (.error .paidLocked, db)
      else if invoice.status = .CANCELLED then
        (.error .cancelledLocked, db)
      else
        let updated : Invoice := applyInvoiceUpdate invoice input now
        (.ok updated, db.map fun i => if i.id = id then updated else i)

/-- `router.delete("/:id")`, lines 395-411:
`prisma.invoice.delete({ where: { id, userId } })`. -/
def deleteInvoice (db : List Invoice) (callerId : String) (id : String) :
    List Invoice :=
  db.filter fun i => !(i.id == id && i.userId == callerId)

/-! ## Helper lemmas about the handlers -/

theorem subtotalOf_eq_sum (input : CreateInvoiceInput) :
    subtotalOf input = (input.items.map fun it => it.quantity * it.price).sum := by
  have key : ∀ (l : List CreateItemInput) (a : ℚ),
      l.foldl (fun sum it => sum + it.quantity * it.price) a =
        a + (l.map fun it => it.quantity * it.price).sum := by
    intro l
    induction l with
    | nil => intro a; simp
    | cons x t ih =>
      intro a
      simp only [List.foldl_cons, List.map_cons, List.sum_cons, ih]
      ring
  simpa using key input.items 0

theorem createInvoice_nonIntegerQuantity (st : TenantState) (uid : String)
    (input : CreateInvoiceInput) (newId : String) (inc : Bool) (s : Settings)
    (hset : st.settings = some s)
    (hqty : input.items.any (fun item => !item.quantity.isInt) = true) :
    createInvoice st uid input newId inc = (.error .nonIntegerQuantity, st) := by
  simp [createInvoice, hset, hqty]

theorem createInvoice_ok (st : TenantState) (uid : String)
    (input : CreateInvoiceInput) (newId : String) (s : Settings)
    (hset : st.settings = some s)
    (hqty : input.items.any (fun item => !item.quantity.isInt) = false)
    (hany : st.invoices.any
      (fun i => i.id == newId || i.number == nextNumberStr s) = false) :
    createInvoice st uid input newId true =
      (.ok (newInvoice uid input newId (nextNumberStr s)),
        { settings := some { s with nextInvoiceNumber := s.nextInvoiceNumber + 1 },
          invoices := st.invoices ++ [newInvoice uid input newId (nextNumberStr s)] }) := by
  simp [createInvoice, hset, hqty, hany]

theorem createInvoice_incrementFailed (st : TenantState) (uid : String)
    (input : CreateInvoiceInput) (newId : String) (s : Settings)
    (hset : st.settings = some s)
    (hqty : input.items.any (fun item => !item.quantity.isInt) = false)
    (hany : st.invoices.any
      (fun i => i.id == newId || i.number == nextNumberStr s) = false) :
    createInvoice st uid input newId false =
      (.error .incrementFailed,
        { settings := some s,
          invoices := st.invoices ++ [newInvoice uid input newId (nextNumberStr s)] }) := by
  cases st with
  | mk stSettings stInvoices =>
    simp only at hset hany
    subst hset
    simp [createInvoice, hqty, hany]

theorem createInvoice_ok_inversion (st : TenantState) (uid : String)
    (input : CreateInvoiceInput) (newId : String) (inc : Bool) (inv : Invoice)
    (h : (createInvoice st uid input newId inc).1 = .ok inv) :
    ∃ s, st.settings = some s ∧ inc = true ∧
      input.items.any (fun item => !item.quantity.isInt) = false ∧
      st.invoices.any (fun i => i.id == newId || i.number == nextNumberStr s) = false ∧
      inv = newInvoice uid input newId (nextNumberStr s) ∧
      (createInvoice st uid input newId inc).2 =
        { settings := some { s with nextInvoiceNumber := s.nextInvoiceNumber + 1 },
          invoices := st.invoices ++ [inv] } := by
  cases hset : st.settings with
  | none => simp [createInvoice, hset] at h
  | some s =>
    refine ⟨s, rfl, ?_⟩
    cases hqty : input.items.any (fun item => !item.quantity.isInt) with
    | true => simp [createInvoice, hset, hqty] at h
    | false =>
      cases hany : st.invoices.any (fun i => i.id == newId || i.number == nextNumberStr s) with
      | true => simp [createInvoice, hset, hqty, hany] at h
      | false =>
        cases inc with
        | false => simp [createInvoice, hset, hqty, hany] at h
        | true =>
          have hres := createInvoice_ok st uid input newId s hset hqty hany
          rw [hres] at h
          simp only [Except.ok.injEq] at h
          refine ⟨rfl, rfl, rfl, h.symm, ?_⟩
          rw [hres, h]

/-! ## Concrete fixtures (the spec's scenarios) -/

/-- A provisioned tenant: prefix `"INV"`, counter `7`, no invoices yet. -/
def exampleState : TenantState :=
  { settings := some { invoicePrefix := some "INV", nextInvoiceNumber := 7 },
    invoices := [] }

/-- A tenant whose settings row carries the empty string as its prefix. -/
def emptyPrefixState : TenantState :=
  { settings := some { invoicePrefix := some "", nextInvoiceNumber := 7 },
    invoices := [] }

/-- The spec's creation scenario: items `[{desc:"A", qty:2, price:100},
{desc:"B", qty:1, price:50}]` with `taxRate = 10`. -/
def exampleCreateInput : CreateInvoiceInput :=
  { customerId := "c1"
    date := "2024-01-01"
    dueDate := "2024-01-31"
    items := [{ description := "A", quantity := 2, price := 100 },
              { description := "B", quantity := 1, price := 50 }]
    notes := none
    taxRate := 10 }

/-- A payload the spec calls invalid: a negative quantity, a zero quantity,
a negative price and a negative tax rate (all quantities integral, so the
database layer accepts the insert).  `createInvoiceSchema` accepts it. -/
def badCreateInput : CreateInvoiceInput :=
  { customerId := "c1"
    date := "2024-01-01"
    dueDate := "2024-01-31"
    items := [{ description := "A", quantity := -1, price := -5 },
              { description := "B", quantity := 0, price := 10 }]
    notes := none
    taxRate := -10 }

/-- A payload whose first item has the fractional quantity 1/2: accepted by
`createInvoiceSchema` (`z.number()`), but `quantity` is an `Int` column,
so the database layer refuses the insert. -/
def fracCreateInput : CreateInvoiceInput :=
  { customerId := "c1"
    date := "2024-01-01"
    dueDate := "2024-01-31"
    items := [{ description := "A", quantity := Rat.mk' 1 2, price := 10 }]
    notes := none
    taxRate := 10 }

/-! ## C1, C2, C4, C9: the create route -/

/-- C1: every invoice returned by a successful create has
`amount = quantity * price` on each item, `subtotal = sum(quantity * price)`,
`tax = subtotal * taxRate / 100` and `total = subtotal + tax`, and the
invoice is appended to the tenant's persisted invoices; in particular the
spec's scenario (items 2×100 and 1×50, taxRate 10) yields subtotal 250,
tax 25, total 275 with item amounts 200 and 50. -/
theorem create_totals_correct :
    (∀ (st : TenantState) (uid : String) (input : CreateInvoiceInput)
        (newId : String) (inc : Bool) (inv : Invoice),
        (createInvoice st uid input newId inc).1 = .ok inv →
        (∀ it ∈ inv.items, it.amount = it.quantity * it.price) ∧
        inv.subtotal = (input.items.map fun it => it.quantity * it.price).sum ∧
        inv.tax = inv.subtotal * input.taxRate / 100 ∧
        inv.total = inv.subtotal + inv.tax ∧
        (createInvoice st uid input newId inc).2.invoices = st.invoices ++ [inv]) ∧
    (createInvoice exampleState "u" exampleCreateInput "id1" true).1.map
        (fun i => (i.subtotal, i.tax, i.total, i.items.map fun it => it.amount)) =
      .ok (250, 25, 275, [200, 50]) := by
  constructor
  · intro st uid input newId inc inv h
    obtain ⟨s, hset, hinc, hqty, hany, hinv, hst⟩ := createInvoice_ok_inversion _ _ _ _ _ _ h
    subst hinv
    refine ⟨?_, ?_, rfl, rfl, by simp [hst]⟩
    · intro it hit
      simp only [newInvoice, List.mem_map] at hit
      obtain ⟨x, _, rfl⟩ := hit
      rfl
    · simpa [newInvoice] using subtotalOf_eq_sum input
  · rw [createInvoice_ok exampleState "u" exampleCreateInput "id1"
      { invoicePrefix := some "INV", nextInvoiceNumber := 7 } rfl (by decide) rfl]
    simp only [Except.map, newInvoice, Except.ok.injEq, Prod.mk.injEq]
    refine ⟨?_, ?_, ?_, ?_⟩
    · norm_num [subtotalOf, exampleCreateInput]
    · norm_num [taxOf, subtotalOf, exampleCreateInput]
    · norm_num [totalOf, taxOf, subtotalOf, exampleCreateInput]
    · norm_num [exampleCreateInput]

/-- C2 (as amended): the allocated invoice number is the effective prefix —
the stored prefix when it is a non-empty string, `"INV"` when it is absent
*or empty* — followed by the counter zero-padded to width 5, and a
successful create advances the counter by one; the spec's scenario
(prefix `"INV"`, counter 7) yields `"INV00007"` and counter 8. -/
theorem create_number_allocation :
    (∀ (st : TenantState) (uid : String) (input : CreateInvoiceInput)
        (newId : String) (s : Settings) (inv : Invoice),
        st.settings = some s →
        (createInvoice st uid input newId true).1 = .ok inv →
        inv.number = strOrDefault s.invoicePrefix "INV" ++ pad5Str s.nextInvoiceNumber ∧
        counterOf (createInvoice st uid input newId true).2 = s.nextInvoiceNumber + 1) ∧
    ((createInvoice exampleState "u" exampleCreateInput "id1" true).1.map
        (fun i => i.number) = .ok "INV00007" ∧
      counterOf (createInvoice exampleState "u" exampleCreateInput "id1" true).2 = 8) := by
  constructor
  · intro st uid input newId s inv hset h
    obtain ⟨s', hset', _, _, hany, hinv, hst⟩ := createInvoice_ok_inversion _ _ _ _ _ _ h
    rw [hset] at hset'
    cases hset'
    subst hinv
    exact ⟨rfl, by simp [hst, counterOf]⟩
  · constructor <;> decide

/-- C2 counterexample: with a settings row whose stored prefix is present
but equal to `""` and counter 7, the claim predicts the number
`"" ++ pad5("7") = "00007"`, but the code's `invoicePrefix || "INV"`
treats the empty string as falsy and allocates `"INV00007"`. -/
theorem create_number_empty_prefix_counterexample :
    (createInvoice emptyPrefixState "u" exampleCreateInput "id1" true).1.map
        (fun i => i.number) = .ok "INV00007" ∧
      ¬ ("INV00007" : String) = "" ++ pad5Str 7 := by
  constructor <;> decide

/-- C4 (as amended): the create route performs two separate writes with no
transaction around them: the invoice row (with its items) is inserted
first, and the counter is incremented by a second, independent write.
When both writes succeed the invoice is appended and the counter advances;
when the second write fails, the invoice stays persisted while the counter
is left unconsumed, and the caller sees an error. -/
theorem create_writes_not_atomic (st : TenantState) (uid : String)
    (input : CreateInvoiceInput) (newId : String) (s : Settings)
    (hset : st.settings = some s)
    (hqty : input.items.any (fun item => !item.quantity.isInt) = false)
    (hany : st.invoices.any
      (fun i => i.id == newId || i.number == nextNumberStr s) = false) :
    ((createInvoice st uid input newId true).2.invoices.length =
        st.invoices.length + 1 ∧
      counterOf (createInvoice st uid input newId true).2 = s.nextInvoiceNumber + 1) ∧
    ((createInvoice st uid input newId false).2.invoices.length =
        st.invoices.length + 1 ∧
      counterOf (createInvoice st uid input newId false).2 = s.nextInvoiceNumber ∧
      (createInvoice st uid input newId false).1 = .error .incrementFailed) := by
  rw [createInvoice_ok st uid input newId s hset hqty hany,
    createInvoice_incrementFailed st uid input newId s hset hqty hany]
  simp [counterOf]

theorem create_writes_not_atomic_witness :
    ((createInvoice exampleState "u" exampleCreateInput "id1" true).2.invoices.length =
        exampleState.invoices.length + 1 ∧
      counterOf (createInvoice exampleState "u" exampleCreateInput "id1" true).2 = 7 + 1) ∧
    ((createInvoice exampleState "u" exampleCreateInput "id1" false).2.invoices.length =
        exampleState.invoices.length + 1 ∧
      counterOf (createInvoice exampleState "u" exampleCreateInput "id1" false).2 = 7 ∧
      (createInvoice exampleState "u" exampleCreateInput "id1" false).1 =
        .error .incrementFailed) :=
  create_writes_not_atomic exampleState "u" exampleCreateInput "id1"
    { invoicePrefix := some "INV", nextInvoiceNumber := 7 } (by decide) (by decide) (by decide)

/-- C4 counterexample: starting from a provisioned tenant with counter 7
and no invoices, a run in which the increment write fails leaves one
persisted invoice while the counter still reads 7 — the invoice is
persisted without the number being consumed, contradicting the claimed
all-or-nothing behaviour. -/
theorem create_partial_state_counterexample :
    (createInvoice exampleState "u" exampleCreateInput "id1" false).1 =
        .error .incrementFailed ∧
      (createInvoice exampleState "u" exampleCreateInput "id1" false).2.invoices.length = 1 ∧
      counterOf (createInvoice exampleState "u" exampleCreateInput "id1" false).2 = 7 := by
  refine ⟨by decide, by decide, by decide⟩

/-- C9 (as amended): `createInvoiceSchema` only constrains the fields'
types (`z.number()`), so no `InvalidInput` rejection exists: a create
whose quantities are all integers is accepted and persisted whatever the
signs of the quantities, prices and tax rate (negative and zero values
included); the one rejection comes from the database layer, which refuses
an insert carrying a non-integer quantity for the `Int` column before
anything is written, leaving the tenant state unchanged. -/
theorem create_accepts_any_numbers (st : TenantState) (uid : String)
    (input : CreateInvoiceInput) (newId : String) (s : Settings)
    (hset : st.settings = some s) :
    (input.items.any (fun item => !item.quantity.isInt) = false →
      st.invoices.any (fun i => i.id == newId || i.number == nextNumberStr s) = false →
      ∃ inv, (createInvoice st uid input newId true).1 = .ok inv ∧
        (createInvoice st uid input newId true).2.invoices = st.invoices ++ [inv]) ∧
    (input.items.any (fun item => !item.quantity.isInt) = true →
      createInvoice st uid input newId true = (.error .nonIntegerQuantity, st)) := by
  constructor
  · intro hqty hany
    rw [createInvoice_ok st uid input newId s hset hqty hany]
    exact ⟨_, rfl, rfl⟩
  · intro hqty
    exact createInvoice_nonIntegerQuantity st uid input newId true s hset hqty

theorem create_accepts_any_numbers_witness :
    ((badCreateInput.items.any (fun item => !item.quantity.isInt) = false →
      exampleState.invoices.any (fun i => i.id == "idbad" ||
        i.number == nextNumberStr { invoicePrefix := some "INV", nextInvoiceNumber := 7 }) = false →
      ∃ inv, (createInvoice exampleState "u" badCreateInput "idbad" true).1 = .ok inv ∧
        (createInvoice exampleState "u" badCreateInput "idbad" true).2.invoices =
          exampleState.invoices ++ [inv]) ∧
    (badCreateInput.items.any (fun item => !item.quantity.isInt) = true →
      createInvoice exampleState "u" badCreateInput "idbad" true =
        (.error .nonIntegerQuantity, exampleState))) ∧
    (createInvoice exampleState "u" badCreateInput "idbad" true).1.map
        (fun i => i.id) = .ok "idbad" ∧
    createInvoice exampleState "u" fracCreateInput "idf" true =
      (.error .nonIntegerQuantity, exampleState) :=
  ⟨create_accepts_any_numbers exampleState "u" badCreateInput "idbad"
      { invoicePrefix := some "INV", nextInvoiceNumber := 7 } (by decide),
    by decide, by decide⟩

/-- C9 counterexample: a create whose first item has the integer quantity
−1 (not a positive integer) and price −5, whose second item has quantity
0, and whose tax rate is −10 does not fail: it returns the new invoice
and persists it (the resulting tenant state holds one invoice). -/
theorem create_invalid_input_accepted_counterexample :
    (createInvoice exampleState "u" badCreateInput "idbad" true).1.map
        (fun i => i.id) = .ok "idbad" ∧
      (createInvoice exampleState "u" badCreateInput "idbad" true).2.invoices.length = 1 := by
  constructor <;> decide

/-! ## Update-route fixtures and helper lemmas -/

/-- An OVERDUE invoice of tenant A. -/
def overdueInvoice : Invoice :=
  { id := "i1"
    number := "INV00003"
    date := "2024-01-01"
    dueDate := "2024-01-15"
    status := .OVERDUE
    subtotal := 100
    tax := 10
    total := 110
    notes := some "old"
    paymentProof := none
    paidAt := none
    userId := "tenantA"
    customerId := "c1"
    items := [] }

/-- A PAID invoice (paid at instant 5). -/
def paidInvoice : Invoice :=
  { overdueInvoice with id := "i2", status := .PAID, paidAt := some 5 }

/-- A CANCELLED invoice. -/
def cancelledInvoice : Invoice :=
  { overdueInvoice with id := "i3", status := .CANCELLED }

/-- An UNPAID invoice. -/
def unpaidInvoice : Invoice :=
  { overdueInvoice with id := "i5", status := .UNPAID }

/-- An UNPAID invoice belonging to tenant B. -/
def otherTenantInvoice : Invoice :=
  { overdueInvoice with id := "i4", status := .UNPAID, userId := "tenantB" }

/-- The update payload with every key absent. -/
def emptyUpdate : UpdateInvoiceInput :=
  { status := none
    paymentProof := none
    paymentNote := none
    dueDate := none
    notes := none
    paidAt := none }

/-- An update payload requesting only a status change. -/
def statusUpdate (s : InvoiceStatus) : UpdateInvoiceInput :=
  { emptyUpdate with status := some s }

/-- The spec's field-mutation scenario `{notes:"x"}` (no status change). -/
def notesUpdate : UpdateInvoiceInput :=
  { emptyUpdate with notes := some "x" }

theorem updateInvoice_ok (db : List Invoice) (cid id : String)
    (input : UpdateInvoiceInput) (now : ℕ) (inv : Invoice)
    (hf : db.find? (fun i => i.id == id) = some inv)
    (hp : ¬(inv.status = .PAID ∧ ¬input.status = some .CANCELLED))
    (hc : ¬inv.status = .CANCELLED) :
    updateInvoice db cid id input now =
      (.ok (applyInvoiceUpdate inv input now),
        db.map fun i => if i.id = id then applyInvoiceUpdate inv input now else i) := by
  simp [updateInvoice, hf, hp, hc]

theorem updateInvoice_paidLocked (db : List Invoice) (cid id : String)
    (input : UpdateInvoiceInput) (now : ℕ) (inv : Invoice)
    (hf : db.find? (fun i => i.id == id) = some inv)
    (h1 : inv.status = .PAID) (h2 : ¬input.status = some .CANCELLED) :
    updateInvoice db cid id input now = (.error .paidLocked, db) := by
  simp [updateInvoice, hf, h1, h2]

theorem updateInvoice_cancelledLocked (db : List Invoice) (cid id : String)
    (input : UpdateInvoiceInput) (now : ℕ) (inv : Invoice)
    (hf : db.find? (fun i => i.id == id) = some inv)
    (h1 : inv.status = .CANCELLED) :
    updateInvoice db cid id input now = (.error .cancelledLocked, db) := by
  have hp : ¬(inv.status = .PAID ∧ ¬input.status = some .CANCELLED) := by
    rw [h1]; rintro ⟨h, -⟩; cases h
  simp [updateInvoice, hf, hp, h1]

/-! ## C5, C6, C7, C8, C10: the update route -/

/-- The status pairs the code accepts: every request on an UNPAID or
OVERDUE invoice, only CANCELLED on a PAID invoice, nothing on a CANCELLED
invoice.  (This is the repaired version of the spec's transition table:
the code also lets OVERDUE go back to UNPAID.) -/
def statusChangeAllowed (cur requested : InvoiceStatus) : Bool :=
  match cur with
  | .CANCELLED => false
  | .PAID => requested == .CANCELLED
  | _ => true

/-- C5 (as amended): a requested status change succeeds exactly when
`statusChangeAllowed` holds of (current, requested) — i.e. the table is
{UNPAID→any, OVERDUE→any, PAID→CANCELLED} — and a rejected change returns
an error and leaves the stored invoices unchanged.  Beyond the spec's
table, OVERDUE→UNPAID (and trivial self-transitions) are accepted. -/
theorem update_status_transition_table (db : List Invoice) (cid id : String)
    (input : UpdateInvoiceInput) (now : ℕ) (inv : Invoice) (s' : InvoiceStatus)
    (hf : db.find? (fun i => i.id == id) = some inv)
    (hreq : input.status = some s') :
    (statusChangeAllowed inv.status s' = true →
      ∃ inv', (updateInvoice db cid id input now).1 = .ok inv' ∧ inv'.status = s') ∧
    (statusChangeAllowed inv.status s' = false →
      (∃ e, (updateInvoice db cid id input now).1 = .error e) ∧
      (updateInvoice db cid id input now).2 = db) := by
  constructor
  · intro hallow
    have hc : ¬inv.status = .CANCELLED := by
      intro h; rw [h] at hallow; simp [statusChangeAllowed] at hallow
    have hp : ¬(inv.status = .PAID ∧ ¬input.status = some .CANCELLED) := by
      rintro ⟨h, hnc⟩
      rw [h] at hallow
      simp only [statusChangeAllowed, beq_iff_eq] at hallow
      exact hnc (by rw [hreq, hallow])
    rw [updateInvoice_ok db cid id input now inv hf hp hc]
    exact ⟨_, rfl, by simp [applyInvoiceUpdate, hreq]⟩
  · intro hallow
    cases hcur : inv.status with
    | CANCELLED =>
      rw [updateInvoice_cancelledLocked db cid id input now inv hf hcur]
      exact ⟨⟨_, rfl⟩, rfl⟩
    | PAID =>
      rw [hcur] at hallow
      simp only [statusChangeAllowed, beq_eq_false_iff_ne, ne_eq] at hallow
      have h2 : ¬input.status = some .CANCELLED := by
        rw [hreq]; intro h; cases h; exact hallow rfl
      rw [updateInvoice_paidLocked db cid id input now inv hf hcur h2]
      exact ⟨⟨_, rfl⟩, rfl⟩
    | UNPAID => rw [hcur] at hallow; simp [statusChangeAllowed] at hallow
    | OVERDUE => rw [hcur] at hallow; simp [statusChangeAllowed] at hallow

theorem update_status_transition_table_witness :
    (statusChangeAllowed overdueInvoice.status .UNPAID = true →
      ∃ inv', (updateInvoice [overdueInvoice] "tenantA" "i1"
          (statusUpdate .UNPAID) 5).1 = .ok inv' ∧ inv'.status = .UNPAID) ∧
    (statusChangeAllowed overdueInvoice.status .UNPAID = false →
      (∃ e, (updateInvoice [overdueInvoice] "tenantA" "i1"
          (statusUpdate .UNPAID) 5).1 = .error e) ∧
      (updateInvoice [overdueInvoice] "tenantA" "i1"
          (statusUpdate .UNPAID) 5).2 = [overdueInvoice]) :=
  update_status_transition_table [overdueInvoice] "tenantA" "i1"
    (statusUpdate .UNPAID) 5 overdueInvoice .UNPAID (by rfl) (by rfl)

/-- C5 counterexample: an OVERDUE invoice receiving `{status:"UNPAID"}` is
not rejected — the update succeeds and stores status UNPAID, though the
claim's table says OVERDUE→UNPAID must fail with InvalidTransition. -/
theorem update_overdue_to_unpaid_counterexample :
    (updateInvoice [overdueInvoice] "tenantA" "i1" (statusUpdate .UNPAID) 5).1.map
        (fun i => i.status) = .ok .UNPAID ∧
      (updateInvoice [overdueInvoice] "tenantA" "i1" (statusUpdate .UNPAID) 5).2.map
        (fun i => i.status) = [.UNPAID] := by
  constructor <;> decide

/-- C6: an update that does not request the CANCELLED status is rejected on
a PAID invoice, and every update whatsoever is rejected on a CANCELLED
invoice; in both cases the stored invoices are returned unchanged.  (The
two rejections surface as the 400 responses of lines 343-356.) -/
theorem update_immutability_guards (db : List Invoice) (cid id : String)
    (input : UpdateInvoiceInput) (now : ℕ) (inv : Invoice)
    (hf : db.find? (fun i => i.id == id) = some inv) :
    (inv.status = .PAID → ¬input.status = some .CANCELLED →
      updateInvoice db cid id input now = (.error .paidLocked, db)) ∧
    (inv.status = .CANCELLED →
      updateInvoice db cid id input now = (.error .cancelledLocked, db)) :=
  ⟨fun h1 h2 => updateInvoice_paidLocked db cid id input now inv hf h1 h2,
   fun h1 => updateInvoice_cancelledLocked db cid id input now inv hf h1⟩

theorem update_immutability_guards_witness :
    ((paidInvoice.status = .PAID → ¬notesUpdate.status = some .CANCELLED →
        updateInvoice [paidInvoice] "tenantA" "i2" notesUpdate 9 =
          (.error .paidLocked, [paidInvoice])) ∧
      (paidInvoice.status = .CANCELLED →
        updateInvoice [paidInvoice] "tenantA" "i2" notesUpdate 9 =
          (.error .cancelledLocked, [paidInvoice]))) ∧
    ((cancelledInvoice.status = .PAID → ¬notesUpdate.status = some .CANCELLED →
        updateInvoice [cancelledInvoice] "tenantA" "i3" notesUpdate 9 =
          (.error .paidLocked, [cancelledInvoice])) ∧
      (cancelledInvoice.status = .CANCELLED →
        updateInvoice [cancelledInvoice] "tenantA" "i3" notesUpdate 9 =
          (.error .cancelledLocked, [cancelledInvoice]))) :=
  ⟨update_immutability_guards [paidInvoice] "tenantA" "i2" notesUpdate 9
      paidInvoice (by rfl),
    update_immutability_guards [cancelledInvoice] "tenantA" "i3" notesUpdate 9
      cancelledInvoice (by rfl)⟩

/-- C7 (as amended): an update that moves a non-PAID invoice to PAID stamps
`paidAt` with the current instant; but requesting PAID on an invoice that
is already PAID is not a successful no-op — the handler rejects it with
the PAID-immutability error, leaving the stored invoice (and its original
`paidAt`) untouched. -/
theorem update_paid_stamps_paidAt (db : List Invoice) (cid id : String)
    (input : UpdateInvoiceInput) (now : ℕ) (inv : Invoice)
    (hf : db.find? (fun i => i.id == id) = some inv) :
    (∀ inv', input.status = some .PAID → ¬inv.status = .PAID →
      (updateInvoice db cid id input now).1 = .ok inv' →
      inv'.paidAt = some now) ∧
    (input.status = some .PAID → inv.status = .PAID →
      updateInvoice db cid id input now = (.error .paidLocked, db)) := by
  constructor
  · intro inv' hreq hnp hok
    by_cases hc : inv.status = .CANCELLED
    · rw [updateInvoice_cancelledLocked db cid id input now inv hf hc] at hok
      cases hok
    · have hp : ¬(inv.status = .PAID ∧ ¬input.status = some .CANCELLED) := by
        rintro ⟨h, -⟩; exact hnp h
      rw [updateInvoice_ok db cid id input now inv hf hp hc] at hok
      cases hok
      simp [applyInvoiceUpdate, hreq, hnp]
  · intro hreq hpd
    have h2 : ¬input.status = some .CANCELLED := by
      rw [hreq]; intro h; cases h
    exact updateInvoice_paidLocked db cid id input now inv hf hpd h2

theorem update_paid_stamps_paidAt_witness :
    ((∀ inv', (statusUpdate .PAID).status = some .PAID →
        ¬unpaidInvoice.status = .PAID →
        (updateInvoice [unpaidInvoice] "tenantA" "i5"
            (statusUpdate .PAID) 99).1 = .ok inv' →
        inv'.paidAt = some 99) ∧
      ((statusUpdate .PAID).status = some .PAID → unpaidInvoice.status = .PAID →
        updateInvoice [unpaidInvoice] "tenantA" "i5" (statusUpdate .PAID) 99 =
          (.error .paidLocked, [unpaidInvoice]))) ∧
    (updateInvoice [unpaidInvoice] "tenantA" "i5" (statusUpdate .PAID) 99).1.map
        (fun i => i.paidAt) = .ok (some 99) :=
  ⟨update_paid_stamps_paidAt [unpaidInvoice] "tenantA" "i5"
      (statusUpdate .PAID) 99 unpaidInvoice (by rfl),
    by decide⟩

/-- C7 counterexample: an invoice already PAID (with `paidAt = some 5`)
receiving `{status:"PAID"}` is not a no-op: the handler answers with the
PAID-immutability error instead of returning the unchanged invoice. -/
theorem update_paid_to_paid_rejected_counterexample :
    (updateInvoice [paidInvoice] "tenantA" "i2" (statusUpdate .PAID) 99).1 =
        .error .paidLocked ∧
      (updateInvoice [paidInvoice] "tenantA" "i2" (statusUpdate .PAID) 99).2.map
        (fun i => i.paidAt) = [some 5] := by
  constructor <;> decide

/-- C8 (code bug): the PATCH handler looks the invoice up by id alone —
`prisma.invoice.findUnique({ where: { id } })` with no `userId` filter —
so a caller from tenant A updates tenant B's invoice instead of receiving
NotFound: here the update succeeds and flips the stored status of an
invoice whose `userId` is `"tenantB"`. -/
theorem update_crosses_tenants :
    otherTenantInvoice.userId = "tenantB" ∧
      ¬("tenantB" : String) = "tenantA" ∧
      (updateInvoice [otherTenantInvoice] "tenantA" "i4"
          (statusUpdate .PAID) 5).1.map (fun i => i.status) = .ok .PAID ∧
      (updateInvoice [otherTenantInvoice] "tenantA" "i4"
          (statusUpdate .PAID) 5).2.map (fun i => i.status) = [.PAID] := by
  refine ⟨rfl, by decide, by decide, by decide⟩

/-- C10: on an invoice that is neither PAID nor CANCELLED the update
succeeds, and the stored `notes` field is governed solely by the
`paymentNote` key: when `paymentNote` is absent, `notes` keeps its old
value no matter what `notes` value the request carried; when `paymentNote`
is present its value (a string, or `null` clearing the field) becomes the
new `notes`.  The invoice record has no `paymentNote` field at all. -/
theorem update_payment_note_remap (db : List Invoice) (cid id : String)
    (input : UpdateInvoiceInput) (now : ℕ) (inv : Invoice)
    (hf : db.find? (fun i => i.id == id) = some inv)
    (hp : ¬inv.status = .PAID) (hc : ¬inv.status = .CANCELLED) :
    ∃ inv', (updateInvoice db cid id input now).1 = .ok inv' ∧
      (input.paymentNote = none → inv'.notes = inv.notes) ∧
      (∀ v, input.paymentNote = some v → inv'.notes = v) := by
  have hpp : ¬(inv.status = .PAID ∧ ¬input.status = some .CANCELLED) := by
    rintro ⟨h, -⟩; exact hp h
  rw [updateInvoice_ok db cid id input now inv hf hpp hc]
  refine ⟨_, rfl, ?_, ?_⟩
  · intro hnone; simp [applyInvoiceUpdate, hnone]
  · intro v hv; simp [applyInvoiceUpdate, hv]

theorem update_payment_note_remap_witness :
    (∃ inv', (updateInvoice [overdueInvoice] "tenantA" "i1" notesUpdate 9).1 =
        .ok inv' ∧
      (notesUpdate.paymentNote = none → inv'.notes = overdueInvoice.notes) ∧
      (∀ v, notesUpdate.paymentNote = some v → inv'.notes = v)) ∧
    (updateInvoice [overdueInvoice] "tenantA" "i1" notesUpdate 9).1.map
        (fun i => i.notes) = .ok (some "old") ∧
    (updateInvoice [overdueInvoice] "tenantA" "i1"
        { notesUpdate with paymentNote := some (some "pn") } 9).1.map
        (fun i => i.notes) = .ok (some "pn") ∧
    (updateInvoice [overdueInvoice] "tenantA" "i1"
        { notesUpdate with paymentNote := some none } 9).1.map
        (fun i => i.notes) = .ok none :=
  ⟨update_payment_note_remap [overdueInvoice] "tenantA" "i1" notesUpdate 9
      overdueInvoice (by rfl) (by decide) (by decide),
    by decide, by decide, by decide⟩

/-! ## C3: traces of operations on one tenant

The invoice-facing operations the router offers a tenant are create,
update and delete.  `applyOp` runs one of them (with every database write
succeeding) and also reports, as ghost data, the allocation the step
performed: the pair of the allocated number string and the counter value
it consumed.  `runOps` threads a whole trace, accumulating the allocation
log; the log keeps the allocations of invoices that are later deleted. -/

inductive TenantOp where
  | createOp (input : CreateInvoiceInput) (newId : String)
  | updateOp (id : String) (input : UpdateInvoiceInput) (now : ℕ)
  | deleteOp (id : String)
deriving DecidableEq, Repr

/-- A freshly provisioned tenant: a settings row and no invoices. -/
def initTenant (p0 : Option String) (n0 : ℕ) : TenantState :=
  { settings := some { invoicePrefix := p0, nextInvoiceNumber := n0 },
    invoices := [] }

/-- Run one operation; return the new state and the allocations made. -/
def applyOp (uid : String) (st : TenantState) : TenantOp → TenantState × List (String × ℕ)
  | .createOp input newId =>
    match st.settings with
    | some s =>
      let r := createInvoice st uid input newId true
      match r.1 with
      | .ok inv => (r.2, [(inv.number, s.nextInvoiceNumber)])
      | .error _ => (r.2, [])
    | none => ((createInvoice st uid input newId true).2, [])
  | .updateOp id input now =>
    ({ st with invoices := (updateInvoice st.invoices uid id input now).2 }, [])
  | .deleteOp id =>
    ({ st with invoices := deleteInvoice st.invoices uid id }, [])

/-- Run a trace, accumulating the allocation log. -/
def runOps (uid : String) (acc : TenantState × List (String × ℕ)) :
    List TenantOp → TenantState × List (String × ℕ)
  | [] => acc
  | op :: ops =>
    let r := applyOp uid acc.1 op
    runOps uid (r.1, acc.2 ++ r.2) ops

/-- The inductive invariant tying a tenant state to its allocation log:
the settings row survives with the original stored prefix; every logged
counter is below the current one; logged counters strictly increase; every
logged number is the effective prefix followed by its padded counter; every
persisted invoice's number was logged; and persisted numbers and ids are
pairwise distinct. -/
def SeqInv (p0 : Option String) (st : TenantState) (log : List (String × ℕ)) : Prop :=
  ∃ n, st.settings = some { invoicePrefix := p0, nextInvoiceNumber := n } ∧
    (∀ e ∈ log, e.2 < n) ∧
    log.Pairwise (fun a b => a.2 < b.2) ∧
    (∀ e ∈ log, e.1 = strOrDefault p0 "INV" ++ pad5Str e.2) ∧
    (∀ i ∈ st.invoices, i.number ∈ log.map Prod.fst) ∧
    (st.invoices.map fun i => i.number).Pairwise (fun a b => ¬a = b) ∧
    (st.invoices.map fun i => i.id).Pairwise (fun a b => ¬a = b)

/-- In a list whose image under a key function is pairwise distinct, two
members with the same key are the same member. -/
theorem eq_of_pairwise_key {α β : Type _} {f : α → β} :
    ∀ {l : List α}, (l.map f).Pairwise (fun a b => ¬a = b) →
      ∀ {a b : α}, a ∈ l → b ∈ l → f a = f b → a = b := by
  intro l
  induction l with
  | nil => intro _ a b ha; cases ha
  | cons c t ih =>
    intro hl a b ha hb hf
    rw [List.map_cons, List.pairwise_cons] at hl
    rcases List.mem_cons.mp ha with ha' | ha' <;> rcases List.mem_cons.mp hb with hb' | hb'
    · rw [ha', hb']
    · exfalso
      apply hl.1 (f b) (List.mem_map_of_mem f hb')
      rw [← ha', hf]
    · exfalso
      apply hl.1 (f a) (List.mem_map_of_mem f ha')
      rw [← hb', ← hf]
    · exact ih hl.2 ha' hb' hf

/-- A successful or failed update leaves every stored invoice's `id` and
`number` unchanged (the replaced row keeps both fields), provided ids are
pairwise distinct. -/
theorem updateInvoice_preserves_keys (db : List Invoice) (cid id : String)
    (input : UpdateInvoiceInput) (now : ℕ)
    (hids : (db.map fun i => i.id).Pairwise (fun a b => ¬a = b)) :
    ((updateInvoice db cid id input now).2.map fun i => i.number) =
        db.map (fun i => i.number) ∧
      ((updateInvoice db cid id input now).2.map fun i => i.id) =
        db.map (fun i => i.id) := by
  cases hf : db.find? (fun i => i.id == id) with
  | none => simp [updateInvoice, hf]
  | some inv =>
    have hinvid : inv.id = id := by
      have := List.find?_some hf
      simpa using this
    have hinvmem : inv ∈ db := List.mem_of_find?_eq_some hf
    by_cases hp : inv.status = .PAID ∧ ¬input.status = some .CANCELLED
    · simp [updateInvoice_paidLocked db cid id input now inv hf hp.1 hp.2]
    · by_cases hc : inv.status = .CANCELLED
      · simp [updateInvoice_cancelledLocked db cid id input now inv hf hc]
      · rw [updateInvoice_ok db cid id input now inv hf hp hc]
        have key : ∀ g : Invoice → String, g (applyInvoiceUpdate inv input now) = g inv →
            ∀ i ∈ db, g (if i.id = id then applyInvoiceUpdate inv input now else i) = g i := by
          intro g hg i hi
          by_cases hii : i.id = id
          · have : i = inv := eq_of_pairwise_key hids hi hinvmem (by rw [hii, hinvid])
            rw [if_pos hii, this, hg]
          · rw [if_neg hii]
        constructor
        · rw [List.map_map]
          exact List.map_congr_left (key (fun i => i.number) rfl)
        · rw [List.map_map]
          exact List.map_congr_left (key (fun i => i.id) rfl)

/-- One step preserves the sequencing invariant, extending the log with
whatever the step allocated. -/
theorem seqInv_applyOp (uid : String) (p0 : Option String) (st : TenantState)
    (log : List (String × ℕ)) (op : TenantOp) (h : SeqInv p0 st log) :
    SeqInv p0 (applyOp uid st op).1 (log ++ (applyOp uid st op).2) := by
  obtain ⟨n, hset, hlt, hsorted, hform, hcov, hnum, hid⟩ := h
  cases op with
  | updateOp id input now =>
    obtain ⟨hn, hi⟩ := updateInvoice_preserves_keys st.invoices uid id input now hid
    simp only [applyOp, List.append_nil]
    refine ⟨n, hset, hlt, hsorted, hform, ?_, ?_, ?_⟩
    · intro i hi'
      have hmem : i.number ∈ ((updateInvoice st.invoices uid id input now).2.map
          fun i => i.number) := List.mem_map_of_mem _ hi'
      rw [hn] at hmem
      obtain ⟨j, hj, hji⟩ := List.mem_map.mp hmem
      exact hji ▸ hcov j hj
    · rw [hn]; exact hnum
    · rw [hi]; exact hid
  | deleteOp id =>
    have hsub : (deleteInvoice st.invoices uid id).Sublist st.invoices :=
      List.filter_sublist _
    simp only [applyOp, List.append_nil]
    refine ⟨n, hset, hlt, hsorted, hform, ?_, ?_, ?_⟩
    · intro i hi'
      exact hcov i (hsub.mem hi')
    · exact List.Pairwise.sublist (hsub.map _) hnum
    · exact List.Pairwise.sublist (hsub.map _) hid
  | createOp input newId =>
    cases hqty : input.items.any (fun item => !item.quantity.isInt) with
    | true =>
      have hstep : applyOp uid st (.createOp input newId) = (st, []) := by
        simp [applyOp, hset,
          createInvoice_nonIntegerQuantity st uid input newId true
            { invoicePrefix := p0, nextInvoiceNumber := n } hset hqty]
      rw [hstep, List.append_nil]
      exact ⟨n, hset, hlt, hsorted, hform, hcov, hnum, hid⟩
    | false =>
    cases hany : st.invoices.any (fun i => i.id == newId ||
        i.number == nextNumberStr { invoicePrefix := p0, nextInvoiceNumber := n }) with
    | true =>
      have hstep : applyOp uid st (.createOp input newId) = (st, []) := by
        simp [applyOp, hset, createInvoice, hqty, hany]
      rw [hstep, List.append_nil]
      exact ⟨n, hset, hlt, hsorted, hform, hcov, hnum, hid⟩
    | false =>
      have hfresh : ∀ i ∈ st.invoices, ¬i.id = newId ∧
          ¬i.number = nextNumberStr { invoicePrefix := p0, nextInvoiceNumber := n } := by
        intro i hi
        have := List.any_eq_false.mp hany i hi
        simpa using this
      have hstep : applyOp uid st (.createOp input newId) =
          ({ settings := some { invoicePrefix := p0, nextInvoiceNumber := n + 1 },
             invoices := st.invoices ++ [newInvoice uid input newId
               (nextNumberStr { invoicePrefix := p0, nextInvoiceNumber := n })] },
           [((newInvoice uid input newId
               (nextNumberStr { invoicePrefix := p0, nextInvoiceNumber := n })).number, n)]) := by
        simp only [applyOp, hset,
          createInvoice_ok st uid input newId
            { invoicePrefix := p0, nextInvoiceNumber := n } hset hqty hany]
      rw [hstep]
      refine ⟨n + 1, rfl, ?_, ?_, ?_, ?_, ?_, ?_⟩
      · intro e he
        rcases List.mem_append.mp he with he | he
        · exact Nat.lt_succ_of_lt (hlt e he)
        · simp only [List.mem_singleton] at he
          rw [he]
          exact Nat.lt_succ_self n
      · refine List.pairwise_append.mpr ⟨hsorted, List.pairwise_singleton _ _, ?_⟩
        intro a ha b hb
        simp only [List.mem_singleton] at hb
        rw [hb]
        exact hlt a ha
      · intro e he
        rcases List.mem_append.mp he with he | he
        · exact hform e he
        · simp only [List.mem_singleton] at he
          rw [he]
          rfl
      · intro i hi
        rcases List.mem_append.mp hi with hi | hi
        · rcases List.mem_map.mp (hcov i hi) with ⟨e, he, hei⟩
          rw [← hei]
          exact List.mem_map_of_mem _ (List.mem_append_left _ he)
        · simp only [List.mem_singleton] at hi
          rw [hi]
          exact List.mem_map_of_mem _ (List.mem_append_right _ (List.mem_singleton_self _))
      · rw [List.map_append]
        refine List.pairwise_append.mpr ⟨hnum, by simp, ?_⟩
        intro a ha b hb
        simp only [List.map_cons, List.map_nil, List.mem_singleton] at hb
        rcases List.mem_map.mp ha with ⟨i, hi, hia⟩
        rw [hb, ← hia]
        exact (hfresh i hi).2
      · rw [List.map_append]
        refine List.pairwise_append.mpr ⟨hid, by simp, ?_⟩
        intro a ha b hb
        simp only [List.map_cons, List.map_nil, List.mem_singleton] at hb
        rcases List.mem_map.mp ha with ⟨i, hi, hia⟩
        rw [hb, ← hia]
        exact (hfresh i hi).1

/-- A whole trace preserves the sequencing invariant. -/
theorem seqInv_runOps (uid : String) (p0 : Option String) :
    ∀ (ops : List TenantOp) (st : TenantState) (log : List (String × ℕ)),
      SeqInv p0 st log →
      SeqInv p0 (runOps uid (st, log) ops).1 (runOps uid (st, log) ops).2 := by
  intro ops
  induction ops with
  | nil => intro st log h; simpa [runOps] using h
  | cons op rest ih =>
    intro st log h
    simp only [runOps]
    exact ih _ _ (seqInv_applyOp uid p0 st log op h)

/-- C3: the counter never decreases under any operation; and along every
trace from a freshly provisioned tenant, the logged counters strictly
increase in allocation order, the allocated number strings are pairwise
distinct (the log keeps deleted invoices' numbers, so a number is never
reused even after a deletion), every allocated number is the effective
prefix followed by the padded counter it consumed, the persisted invoices
carry pairwise distinct numbers, and every persisted number was allocated.
The closing conjunct runs the trace create–delete–create on a tenant with
prefix "INV" and counter 7: the deleted number INV00007 is not reissued,
the second create receives INV00008. -/
theorem invoice_numbers_unique_and_increasing :
    (∀ (uid : String) (st : TenantState) (op : TenantOp),
      counterOf st ≤ counterOf (applyOp uid st op).1) ∧
    (∀ (uid : String) (p0 : Option String) (n0 : ℕ) (ops : List TenantOp),
      ((runOps uid (initTenant p0 n0, []) ops).2.map Prod.snd).Pairwise (· < ·) ∧
      ((runOps uid (initTenant p0 n0, []) ops).2.map Prod.fst).Pairwise
        (fun a b => ¬a = b) ∧
      (∀ e ∈ (runOps uid (initTenant p0 n0, []) ops).2,
        e.1 = strOrDefault p0 "INV" ++ pad5Str e.2) ∧
      ((runOps uid (initTenant p0 n0, []) ops).1.invoices.map
        fun i => i.number).Pairwise (fun a b => ¬a = b) ∧
      (∀ i ∈ (runOps uid (initTenant p0 n0, []) ops).1.invoices,
        i.number ∈ (runOps uid (initTenant p0 n0, []) ops).2.map Prod.fst)) ∧
    (runOps "u" (initTenant (some "INV") 7, [])
        [.createOp exampleCreateInput "a", .deleteOp "a",
         .createOp exampleCreateInput "b"]).2 = [("INV00007", 7), ("INV00008", 8)] := by
  refine ⟨?_, ?_, by decide⟩
  · intro uid st op
    cases op with
    | createOp input newId =>
      cases hset : st.settings with
      | none =>
        simp [applyOp, hset, createInvoice, counterOf]
      | some s =>
        simp only [applyOp, hset]
        cases hqty : input.items.any (fun item => !item.quantity.isInt) with
        | true =>
          have : createInvoice st uid input newId true =
              (.error .nonIntegerQuantity, st) :=
            createInvoice_nonIntegerQuantity st uid input newId true s hset hqty
          simp [this]
        | false =>
          cases hany : st.invoices.any
              (fun i => i.id == newId || i.number == nextNumberStr s) with
          | true =>
            have : createInvoice st uid input newId true = (.error .uniqueConflict, st) := by
              simp [createInvoice, hset, hqty, hany]
            simp [this]
          | false =>
            rw [createInvoice_ok st uid input newId s hset hqty hany]
            simp [counterOf, hset]
    | updateOp id input now => simp [applyOp, counterOf]
    | deleteOp id => simp [applyOp, counterOf]
  · intro uid p0 n0 ops
    have hinit : SeqInv p0 (initTenant p0 n0) [] :=
      ⟨n0, rfl, by simp, by simp, by simp, by simp [initTenant], by simp [initTenant],
        by simp [initTenant]⟩
    obtain ⟨n, hset, hlt, hsorted, hform, hcov, hnum, hid⟩ :=
      seqInv_runOps uid p0 ops (initTenant p0 n0) [] hinit
    refine ⟨?_, ?_, hform, hnum, hcov⟩
    · rw [List.pairwise_map]
      exact hsorted
    · rw [List.pairwise_map]
      refine hsorted.imp_of_mem ?_
      intro a b ha hb hab hcontra
      rw [hform a ha, hform b hb] at hcontra
      have := append_pad5Str_injective _ hcontra
      omega

end SimpleInvoice
